import Mathlib

/-!
Shallow embedding of `simple_caching.py`: a decorator that memoizes a
computation's JSON-serializable result into a gzip-compressed JSON file
inside a cache directory, keyed by a name derived from the computation's
name, an optional comment, and (optionally) autodetected argument material.

The gzip layer is modelled as transparent (compress and decompress form an
inverse pair supplied by the gzip library), so a cache file is modelled as
holding the JSON text that the source writes through the gzip stream.
-/

namespace SimpleCaching

/-- JSON values as handled by Python's json module, restricted to the
JSON-serializable shapes the cached computations return: null, booleans,
integers, strings, arrays and string-keyed objects. -/
inductive Json where
  | null : Json
  | bool (b : Bool) : Json
  | int (n : Int) : Json
  | str (s : String) : Json
  | arr (xs : List Json) : Json
  | obj (kvs : List (String × Json)) : Json

/-- Escape one character the way json.dump escapes string contents
(quote, backslash, newline, tab; other characters are written verbatim). -/
def escChar (c : Char) : List Char :=
  if c = Char.ofNat 34 then [Char.ofNat 92, Char.ofNat 34]
  else if c = Char.ofNat 92 then [Char.ofNat 92, Char.ofNat 92]
  else if c = Char.ofNat 10 then [Char.ofNat 92, 'n']
  else if c = Char.ofNat 9 then [Char.ofNat 92, 't']
  else [c]

/-- Escape a whole string body. -/
def escape (cs : List Char) : List Char := (cs.map escChar).flatten

mutual
/-- Model of json.dump: serialize a value to the text the source writes
into the cache file, with json's default separators. -/
def dumpsJ : Json → List Char
  | .null => ("null").data
  | .bool b => if b then ("true").data else ("false").data
  | .int n => (toString n).data
  | .str s => Char.ofNat 34 :: (escape s.data ++ [Char.ofNat 34])
  | .arr xs => ("[").data ++ dumpsArr xs ++ ("]").data
  | .obj kvs => [Char.ofNat 123] ++ dumpsObj kvs ++ [Char.ofNat 125]

/-- Serialize array elements, comma-separated. -/
def dumpsArr : List Json → List Char
  | [] => []
  | [x] => dumpsJ x
  | x :: y :: xs => dumpsJ x ++ [',', ' '] ++ dumpsArr (y :: xs)

/-- Serialize object entries, comma-separated. -/
def dumpsObj : List (String × Json) → List Char
  | [] => []
  | [(k, v)] =>
      Char.ofNat 34 :: (escape k.data ++ (Char.ofNat 34 :: ':' :: ' ' :: dumpsJ v))
  | (k, v) :: p :: kvs =>
      Char.ofNat 34 :: (escape k.data ++ (Char.ofNat 34 :: ':' :: ' ' :: dumpsJ v))
        ++ [',', ' '] ++ dumpsObj (p :: kvs)
end

/-- JSON whitespace. -/
def isWs (c : Char) : Bool :=
  [' ', Char.ofNat 10, Char.ofNat 9, Char.ofNat 13].contains c

/-- Drop leading JSON whitespace. -/
def skipWs (cs : List Char) : List Char := cs.dropWhile isWs

/-- Consume an expected literal character sequence, returning the rest. -/
def dropLit : List Char → List Char → Option (List Char)
  | [], cs => some cs
  | _ :: _, [] => Option.none
  | p :: ps, c :: cs => if c = p then dropLit ps cs else Option.none

/-- Unescape one escaped character of a JSON string literal. -/
def unescChar (c : Char) : Option Char :=
  if c = Char.ofNat 34 then some (Char.ofNat 34)
  else if c = Char.ofNat 92 then some (Char.ofNat 92)
  else if c = '/' then some '/'
  else if c = 'n' then some (Char.ofNat 10)
  else if c = 't' then some (Char.ofNat 9)
  else if c = 'r' then some (Char.ofNat 13)
  else none

/-- Parse the body of a JSON string literal up to its closing quote. -/
def pStrAux : List Char → Option (List Char × List Char)
  | [] => Option.none
  | c :: rest =>
    if c = Char.ofNat 34 then some ([], rest)
    else if c = Char.ofNat 92 then
      match rest with
      | [] => Option.none
      | e :: rest2 =>
        match unescChar e with
        | Option.none => Option.none
        | some d =>
          match pStrAux rest2 with
          | Option.none => Option.none
          | some (s, r) => some (d :: s, r)
    else
      match pStrAux rest with
      | Option.none => Option.none
      | some (s, r) => some (c :: s, r)

/-- Numeric value of a decimal digit character. -/
def digitVal (c : Char) : Nat := c.toNat - 48

/-- Parse a nonempty run of decimal digits. -/
def pNat (cs : List Char) : Option (Nat × List Char) :=
  let ds := cs.takeWhile Char.isDigit
  if ds.isEmpty then Option.none
  else some (ds.foldl (fun a c => 10 * a + digitVal c) 0, cs.dropWhile Char.isDigit)

/-- Parse a JSON integer, optionally negative. -/
def pNum (cs : List Char) : Option (Json × List Char) :=
  match cs with
  | '-' :: rest =>
    match pNat rest with
    | Option.none => Option.none
    | some (n, r) => some (.int (-(n : Int)), r)
  | _ =>
    match pNat cs with
    | Option.none => Option.none
    | some (n, r) => some (.int (n : Int), r)

mutual
/-- Model of json.loads: fuel-indexed recursive-descent parser for one
JSON value, returning the value and the unconsumed remainder. -/
def pVal : Nat → List Char → Option (Json × List Char)
  | 0, _ => Option.none
  | f + 1, cs =>
    match skipWs cs with
    | [] => Option.none
    | c :: r =>
      if c = 'n' then (dropLit ['u', 'l', 'l'] r).map (fun r2 => (Json.null, r2))
      else if c = 't' then
        (dropLit ['r', 'u', 'e'] r).map (fun r2 => (Json.bool true, r2))
      else if c = 'f' then
        (dropLit ['a', 'l', 's', 'e'] r).map (fun r2 => (Json.bool false, r2))
      else if c = Char.ofNat 34 then
        match pStrAux r with
        | Option.none => Option.none
        | some (s, r2) => some (.str (String.mk s), r2)
      else if c = '[' then
        match skipWs r with
        | [] => Option.none
        | d :: r2 =>
          if d = ']' then some (.arr [], r2)
          else
            match pVal f (d :: r2) with
            | Option.none => Option.none
            | some (v, r3) => pArrTail f [v] r3
      else if c = Char.ofNat 123 then
        match skipWs r with
        | [] => Option.none
        | d :: r2 =>
          if d = Char.ofNat 125 then some (.obj [], r2)
          else pObjEntry f [] (d :: r2)
      else pNum (c :: r)

/-- Parse the continuation of a JSON array after its first element. -/
def pArrTail : Nat → List Json → List Char → Option (Json × List Char)
  | 0, _, _ => Option.none
  | f + 1, acc, cs =>
    match skipWs cs with
    | [] => Option.none
    | c :: r =>
      if c = ']' then some (.arr acc.reverse, r)
      else if c = ',' then
        match pVal f r with
        | Option.none => Option.none
        | some (v, r2) => pArrTail f (v :: acc) r2
      else Option.none

/-- Parse one key/value entry of a JSON object. -/
def pObjEntry : Nat → List (String × Json) → List Char → Option (Json × List Char)
  | 0, _, _ => Option.none
  | f + 1, acc, cs =>
    match skipWs cs with
    | [] => Option.none
    | c :: r =>
      if c = Char.ofNat 34 then
        match pStrAux r with
        | Option.none => Option.none
        | some (k, r2) =>
          match skipWs r2 with
          | [] => Option.none
          | d :: r3 =>
            if d = ':' then
              match pVal f r3 with
              | Option.none => Option.none
              | some (v, r4) => pObjTail f ((String.mk k, v) :: acc) r4
            else Option.none
      else Option.none

/-- Parse the continuation of a JSON object after an entry. -/
def pObjTail : Nat → List (String × Json) → List Char → Option (Json × List Char)
  | 0, _, _ => Option.none
  | f + 1, acc, cs =>
    match skipWs cs with
    | [] => Option.none
    | c :: r =>
      if c = Char.ofNat 125 then some (.obj acc.reverse, r)
      else if c = ',' then pObjEntry f acc r
      else Option.none
end

/-- Model of json.dump writing to the (gzip-transparent) cache file. -/
def dumps (v : Json) : String := String.mk (dumpsJ v)

/-- Model of json.loads over the full file contents: one JSON document,
possibly surrounded by whitespace; anything else fails (ValueError). -/
def loads (s : String) : Option Json :=
  match pVal (s.data.length + 1) s.data with
  | Option.none => Option.none
  | some (v, r) => if (skipWs r).isEmpty then some v else Option.none

/-- Python exceptions that the paths modelled here can raise. -/
inductive PyErr where
  | indexError : PyErr
  | typeError : PyErr
  | nameError : PyErr
  | valueError : PyErr
  | ioError : PyErr
  | user (msg : String) : PyErr
deriving DecidableEq

/-- Python runtime values that can appear as positional or keyword
arguments of a wrapped call: None, booleans, ints, strings, and instances
(`obj`), carrying their `cachedir` attribute when they expose one. -/
inductive PyVal where
  | none : PyVal
  | bool (b : Bool) : PyVal
  | int (n : Int) : PyVal
  | str (s : String) : PyVal
  | obj (cachedir : Option String) : PyVal
deriving DecidableEq

/-- Python truthiness, as used by the source's `if not ...` tests. -/
def pyTruthy : PyVal → Bool
  | .none => false
  | .bool b => b
  | .int n => decide (n ≠ 0)
  | .str s => decide (s ≠ "")
  | .obj _ => true

/-- The `%s` formatting of a value, as used on line 108 of the source. -/
def pyStrOf : PyVal → String
  | .none => "None"
  | .bool true => "True"
  | .bool false => "False"
  | .int n => toString n
  | .str s => s
  | .obj _ => "<instance>"

/-- Keyword arguments of a call: a Python dict modelled as an association
list with distinct keys. -/
abbrev KwArgs := List (String × PyVal)

/-- Look up a key in a kwargs dict. -/
def lookupKw : KwArgs → String → Option PyVal
  | [], _ => Option.none
  | a :: t, k => if a.1 = k then some a.2 else lookupKw t k

/-- Remove a key from a kwargs dict. -/
def eraseKey : KwArgs → String → KwArgs
  | [], _ => []
  | a :: t, k => if a.1 = k then eraseKey t k else a :: eraseKey t k

/-- Model of kwargs.pop with a default: the looked-up value (if the key is
present) together with the dict with that key removed. -/
def popKw (kwargs : KwArgs) (k : String) : Option PyVal × KwArgs :=
  (lookupKw kwargs k, eraseKey kwargs k)

/-- Attribute access `args[0].cachedir` (source line 72): `some` when the
value exposes the attribute, `Option.none` for the AttributeError that the
source catches on line 73. -/
def getattrCachedir : PyVal → Option String
  | .obj (some s) => some s
  | _ => Option.none

/-- Decoration-time configuration of the decorator factory
`simple_caching(cachedir=None, cache_comment=None, autodetect=False)`,
captured as `local_cachedir`, `local_cache_comment`, `local_autodetect`
on lines 60-62 of the source. -/
structure WrapCfg where
  cachedir : PyVal
  cache_comment : PyVal
  autodetect : Bool

/-- A wrapped computation: takes the positional and keyword arguments the
wrapper forwards and either returns a JSON-serializable result or raises. -/
abbrev Method := List PyVal → KwArgs → Except PyErr Json

/-- The filesystem and process environment the wrapper interacts with:
existing directories, regular files with their (gzip-transparent) contents,
and the current working directory returned by os.getcwd(). -/
structure FS where
  dirs : List String
  files : List (String × String)
  cwd : String

/-- Model of os.path.exists: true for an existing directory or file. -/
def pathExists (fs : FS) (p : String) : Bool :=
  fs.dirs.contains p || fs.files.any (fun q => q.1 == p)

/-- Contents of the regular file at a path, when one exists there. -/
def lookupFile (fs : FS) (p : String) : Option String := fs.files.lookup p

/-- Create (or shadow) the regular file at a path. -/
def addFile (fs : FS) (p c : String) : FS := ⟨fs.dirs, (p, c) :: fs.files, fs.cwd⟩

/-- Model of os.path.join on two components (posixpath.join). -/
def ospJoin (a b : String) : String :=
  if b.data.head? = some '/' then b
  else if a = "" then a ++ b
  else if a.data.getLast? = some '/' then a ++ b
  else a ++ "/" ++ b

/-- Python's string.punctuation, used by the stripping loops on
lines 113-116 of the source. -/
def punctuation : List Char :=
  ['!', Char.ofNat 34, '#', '$', '%', '&', Char.ofNat 39, '(', ')', '*', '+', ',',
   '-', '.', '/', ':', ';', '<', '=', '>', '?', '@', '[', Char.ofNat 92, ']', '^',
   '_', Char.ofNat 96, Char.ofNat 123, '|', Char.ofNat 125, '~']

/-- Membership in string.punctuation. -/
def isPunct (c : Char) : Bool := punctuation.contains c

/-- The stripping loops of lines 113-116: drop leading punctuation
characters, then drop trailing punctuation characters. The loops always
terminate on the strings the source builds because the appended suffix
`.cache.gz` contains non-punctuation characters. -/
def stripPunct (s : String) : String :=
  String.mk (((s.data.dropWhile isPunct).reverse.dropWhile isPunct).reverse)

/-- Lines 70-76 of the source: resolve the cache directory. When the
decoration-time `cachedir` is falsy, `args[0].cachedir` is attempted; an
empty `args` makes `args[0]` raise IndexError, which the `except
AttributeError` clause does not catch; on AttributeError the value is
popped from the keyword arguments with default None. -/
def resolveCachedir (cfg : WrapCfg) (args : List PyVal) (kwargs : KwArgs) :
    Except PyErr (PyVal × KwArgs) :=
  if pyTruthy cfg.cachedir then .ok (cfg.cachedir, kwargs)
  else
    match args with
    | [] => .error .indexError
    | a :: _ =>
      match getattrCachedir a with
      | some s => .ok (.str s, kwargs)
      | Option.none =>
        let p := popKw kwargs ("cachedir")
        .ok (p.1.getD PyVal.none, p.2)

/-- Lines 83-86 of the source: resolve the cache comment. When the
decoration-time `cache_comment` is truthy the source assigns
`local_cachedir` (line 86), not the comment; otherwise the comment is
popped from the keyword arguments with default `''`. -/
def resolveComment (cfg : WrapCfg) (kwargs : KwArgs) : PyVal × KwArgs :=
  if pyTruthy cfg.cache_comment then (cfg.cachedir, kwargs)
  else
    let p := popKw kwargs ("cache_comment")
    (p.1.getD (PyVal.str ""), p.2)

/-- Lines 88-91 of the source: resolve the autodetect flag; popped from
the keyword arguments (default False) only when the decoration-time value
is falsy. -/
def resolveAutodetect (cfg : WrapCfg) (kwargs : KwArgs) : Bool × KwArgs :=
  if cfg.autodetect then (true, kwargs)
  else
    let p := popKw kwargs ("autodetect")
    (pyTruthy (p.1.getD (PyVal.bool false)), p.2)

/-- The positional arguments kept by the comprehension on line 93:
`[a for a in args if type(a) is str]` keeps exactly the values whose
runtime type is str. -/
def strArgs (args : List PyVal) : List String :=
  args.filterMap (fun a =>
    match a with
    | .str s => some s
    | _ => Option.none)

/-- Python's `'_'.join`. -/
def joinUnderscore : List String → String
  | [] => ""
  | [x] => x
  | x :: y :: xs => x ++ "_" ++ joinUnderscore (y :: xs)

/-- The values kept by the comprehension on lines 94-96:
`[kwargs[kwa] for kwa in kwargs if type(kwa) in (float, int, str, unicode)]`.
The filter tests the type of the keyword NAME `kwa`, and keyword names are
always of type str, so the test is true for every entry and every keyword
value is kept. -/
def kwargValues (kwargs : KwArgs) : List PyVal := kwargs.map (fun p => p.2)

/-- Python's `'_'.join` applied to a list of arbitrary values: raises a
TypeError as soon as the list holds a non-string element. -/
def joinVals (vs : List PyVal) : Except PyErr String :=
  if vs.all (fun v =>
      match v with
      | .str _ => true
      | _ => false)
  then .ok (joinUnderscore (vs.filterMap (fun v =>
      match v with
      | .str s => some s
      | _ => Option.none)))
  else .error .typeError

/-- Python's `+` between a value and a string, as used by the `+=` on
lines 93-94: succeeds only when the left value is a string. -/
def pyAddStr : PyVal → String → Except PyErr PyVal
  | .str s, t => .ok (.str (s ++ t))
  | _, _ => .error .typeError

/-- Lines 92-96 of the source: when autodetect is on, append to the
comment the underscore-join of the str-typed positional arguments, then
the underscore-join of all keyword values (see `kwargValues`). -/
def applyAutodetect (ad : Bool) (comment : PyVal) (args : List PyVal)
    (kwargs : KwArgs) : Except PyErr PyVal :=
  if ad then
    match pyAddStr comment (joinUnderscore (strArgs args)) with
    | .error e => .error e
    | .ok c1 =>
      match joinVals (kwargValues kwargs) with
      | .error e => .error e
      | .ok j => pyAddStr c1 j
  else .ok comment

/-- The resolved cache directory as a path string; os.path.exists on a
truthy non-string raises TypeError. -/
def asPath : PyVal → Except PyErr String
  | .str s => .ok s
  | _ => .error .typeError

/-- Lines 98-103 of the source: if the directory does not exist, retry it
joined to the current working directory; if that does not exist either the
source reaches `print >> sys.stderr` / `sys.exit(1)` — but the module
imports `syss` (line 6), not `sys`, so the name `sys` is unbound and this
path raises NameError instead of printing and exiting. -/
def validateDir (fs : FS) (d : String) : Except PyErr String :=
  if pathExists fs d then .ok d
  else
    let d2 := ospJoin fs.cwd d
    if pathExists fs d2 then .ok d2
    else .error .nameError

/-- Lines 108-116 of the source: the cache file name. The comment part
`'_%s' % cache_comment` is included only when the comment is truthy; the
suffix `.cache.gz` is appended BEFORE the punctuation-stripping loops run
on the combined string. -/
def mkCachename (name : String) (comment : PyVal) : String :=
  stripPunct (name ++ (if pyTruthy comment then "_" ++ pyStrOf comment else "")
    ++ ".cache.gz")

/-- Observable outcome of one wrapped call: the returned value or raised
exception, the filesystem afterwards, and the list of invocations of the
underlying computation (each with the arguments it received). -/
structure Outcome where
  result : Except PyErr Json
  fs : FS
  calls : List (List PyVal × KwArgs)

/-- Lines 65-128 of the source: the wrapper body `method_wrapper`. The
steps mirror the source in order: cache-directory resolution, the bypass
when no directory resolves, comment and autodetect resolution, autodetect
key material, directory validation, cache-name derivation, and the
load-or-compute branch on the cache path. -/
def method_wrapper (cfg : WrapCfg) (name : String) (method : Method)
    (fs : FS) (args : List PyVal) (kwargs : KwArgs) : Outcome :=
  match resolveCachedir cfg args kwargs with
  | .error e => ⟨.error e, fs, []⟩
  | .ok (cd, kw1) =>
    if pyTruthy cd then
      let c := resolveComment cfg kw1
      let a := resolveAutodetect cfg c.2
      match applyAutodetect a.1 c.1 args a.2 with
      | .error e => ⟨.error e, fs, []⟩
      | .ok cmt =>
        match asPath cd with
        | .error e => ⟨.error e, fs, []⟩
        | .ok d0 =>
          match validateDir fs d0 with
          | .error e => ⟨.error e, fs, []⟩
          | .ok d =>
            let cachepath := ospJoin d (mkCachename name cmt)
            if pathExists fs cachepath then
              match lookupFile fs cachepath with
              | some content =>
                match loads content with
                | some v => ⟨.ok v, fs, []⟩
                | Option.none => ⟨.error .valueError, fs, []⟩
              | Option.none => ⟨.error .ioError, fs, []⟩
            else
              match method args a.2 with
              | .error e => ⟨.error e, fs, [(args, a.2)]⟩
              | .ok v => ⟨.ok v, addFile fs cachepath (dumps v), [(args, a.2)]⟩
    else ⟨method args kw1, fs, [(args, kw1)]⟩

/-- A representative nested mapping/sequence/primitive result value. -/
def vRep : Json :=
  Json.obj [("a", Json.arr [Json.int 1, Json.str ("x"), Json.null]),
            ("b", Json.bool true), ("n", Json.int (-2))]

/-- A computation that returns the representative value. -/
def mRep : Method := fun _ _ => .ok vRep

/-- A computation that raises. -/
def mBoom : Method := fun _ _ => .error (.user ("boom"))

/-- A filesystem with one cache directory `d` and no files. -/
def fs0 : FS := ⟨["d"], [], "/cwd"⟩

/-- Adding a file preserves path existence. -/
theorem pathExists_addFile_of (fs : FS) (p c q : String)
    (h : pathExists fs q = true) : pathExists (addFile fs p c) q = true := by
  simp only [pathExists, addFile, List.any_cons, Bool.or_eq_true] at h ⊢
  tauto

/-- The path of a just-added file exists. -/
theorem pathExists_addFile_self (fs : FS) (p c : String) :
    pathExists (addFile fs p c) p = true := by
  simp [pathExists, addFile]

/-- Looking up a just-added file returns its contents. -/
theorem lookupFile_addFile_self (fs : FS) (p c : String) :
    lookupFile (addFile fs p c) p = some c := by
  simp [lookupFile, addFile, List.lookup]

/-- Directory validation succeeds directly on an existing directory. -/
theorem validateDir_of_exists (fs : FS) (d : String)
    (h : pathExists fs d = true) : validateDir fs d = .ok d := by
  simp [validateDir, h]

/-- Directory validation is stable under adding a file. -/
theorem validateDir_addFile (fs : FS) (p c d : String)
    (h : pathExists fs d = true) : validateDir (addFile fs p c) d = .ok d := by
  simp [validateDir, pathExists_addFile_of fs p c d h]

/-- After erasing a key, that key is gone from the dict. -/
theorem lookup_eraseKey_self (l : KwArgs) (k : String) :
    lookupKw (eraseKey l k) k = Option.none := by
  induction l with
  | nil => rfl
  | cons a t ih =>
    by_cases h : a.1 = k
    · simpa [eraseKey, h] using ih
    · simpa [eraseKey, lookupKw, h] using ih

/-- Erasing a key leaves every other key's value unchanged. -/
theorem lookup_eraseKey_ne (l : KwArgs) (k k' : String) (h : k' ≠ k) :
    lookupKw (eraseKey l k) k' = lookupKw l k' := by
  induction l with
  | nil => rfl
  | cons a t ih =>
    by_cases ha : a.1 = k
    · have hkk : ¬ k = k' := fun e => h e.symm
      simpa [eraseKey, ha, lookupKw, hkk] using ih
    · by_cases hk : a.1 = k'
      · simp [eraseKey, lookupKw, ha, hk, h]
      · simpa [eraseKey, lookupKw, ha, hk] using ih

/-- Comment resolution leaves every key other than cache_comment
unchanged in the keyword arguments. -/
theorem lookup_resolveComment_ne (cfg : WrapCfg) (kwargs : KwArgs)
    (k : String) (h : k ≠ "cache_comment") :
    lookupKw (resolveComment cfg kwargs).2 k = lookupKw kwargs k := by
  unfold resolveComment
  by_cases hc : pyTruthy cfg.cache_comment
  · simp [hc]
  · simp [hc, popKw, lookup_eraseKey_ne kwargs ("cache_comment") k h]

/-- Autodetect resolution leaves every key other than autodetect
unchanged in the keyword arguments. -/
theorem lookup_resolveAutodetect_ne (cfg : WrapCfg) (kwargs : KwArgs)
    (k : String) (h : k ≠ "autodetect") :
    lookupKw (resolveAutodetect cfg kwargs).2 k = lookupKw kwargs k := by
  unfold resolveAutodetect
  by_cases hc : cfg.autodetect
  · simp [hc]
  · simp [hc, popKw, lookup_eraseKey_ne kwargs ("autodetect") k h]

/-- C1: write-then-read idempotence with round-trip fidelity. For every
computation with a JSON-serializable (round-tripping) result and fixed
arguments, the first call with a valid cache directory invokes the
computation, writes the serialized result to the derived cache path, and
returns the result; a subsequent call with the same arguments and
directory (and hence any later call, the state being unchanged) returns a
value deep-equal to that result without invoking the computation again. -/
theorem c1_write_then_read_idempotence
    (cfg : WrapCfg) (name : String) (method : Method) (fs : FS)
    (args : List PyVal) (kwargs : KwArgs) (cd cmt0 : PyVal)
    (kw1 kw2 kw3 : KwArgs) (ad : Bool) (cmt : PyVal) (d0 : String) (v : Json)
    (h1 : resolveCachedir cfg args kwargs = .ok (cd, kw1))
    (h2 : pyTruthy cd = true)
    (h3 : resolveComment cfg kw1 = (cmt0, kw2))
    (h4 : resolveAutodetect cfg kw2 = (ad, kw3))
    (h5 : applyAutodetect ad cmt0 args kw3 = .ok cmt)
    (h6 : asPath cd = .ok d0)
    (h7 : pathExists fs d0 = true)
    (h8 : pathExists fs (ospJoin d0 (mkCachename name cmt)) = false)
    (h9 : method args kw3 = .ok v)
    (h10 : loads (dumps v) = some v) :
    method_wrapper cfg name method fs args kwargs =
      ⟨.ok v, addFile fs (ospJoin d0 (mkCachename name cmt)) (dumps v),
        [(args, kw3)]⟩
    ∧ method_wrapper cfg name method
        (addFile fs (ospJoin d0 (mkCachename name cmt)) (dumps v)) args kwargs =
      ⟨.ok v, addFile fs (ospJoin d0 (mkCachename name cmt)) (dumps v), []⟩ := by
  constructor
  · simp [method_wrapper, h1, h2, h3, h4, h5, h6,
      validateDir_of_exists fs d0 h7, h8, h9]
  · simp [method_wrapper, h1, h2, h3, h4, h5, h6,
      validateDir_addFile fs (ospJoin d0 (mkCachename name cmt)) (dumps v) d0 h7,
      pathExists_addFile_self, lookupFile_addFile_self, h10]

/-- Witness for C1 at a concrete configuration, computation and nested
representative result value. -/
theorem c1_witness :
    method_wrapper ⟨PyVal.str ("d"), PyVal.none, false⟩ ("f") mRep fs0 [] [] =
      ⟨.ok vRep,
        addFile fs0 (ospJoin ("d") (mkCachename ("f") (PyVal.str ("")))) (dumps vRep),
        [([], [])]⟩
    ∧ method_wrapper ⟨PyVal.str ("d"), PyVal.none, false⟩ ("f") mRep
        (addFile fs0 (ospJoin ("d") (mkCachename ("f") (PyVal.str ("")))) (dumps vRep))
        [] [] =
      ⟨.ok vRep,
        addFile fs0 (ospJoin ("d") (mkCachename ("f") (PyVal.str ("")))) (dumps vRep),
        []⟩ :=
  c1_write_then_read_idempotence ⟨PyVal.str ("d"), PyVal.none, false⟩ ("f") mRep fs0
    [] [] (PyVal.str ("d")) (PyVal.str ("")) [] [] [] false (PyVal.str ("")) ("d")
    vRep rfl rfl rfl rfl rfl rfl rfl rfl rfl rfl

/-- C2: cache bypass. For every call in which configuration resolution
completes and yields no (falsy) cache directory, the wrapper invokes the
underlying computation directly with the remaining arguments, returns its
result unchanged, and leaves the filesystem untouched. -/
theorem c2_cache_bypass
    (cfg : WrapCfg) (name : String) (method : Method) (fs : FS)
    (args : List PyVal) (kwargs : KwArgs) (cd : PyVal) (kw1 : KwArgs)
    (h1 : resolveCachedir cfg args kwargs = .ok (cd, kw1))
    (h2 : pyTruthy cd = false) :
    method_wrapper cfg name method fs args kwargs =
      ⟨method args kw1, fs, [(args, kw1)]⟩ := by
  simp [method_wrapper, h1, h2]

/-- Witness for C2: no decoration-time directory, a first argument with no
cachedir attribute, and no cachedir keyword. -/
theorem c2_witness :
    method_wrapper ⟨PyVal.none, PyVal.none, false⟩ ("f") mRep fs0 [PyVal.int 5] [] =
      ⟨mRep [PyVal.int 5] [], fs0, [([PyVal.int 5], [])]⟩ :=
  c2_cache_bypass ⟨PyVal.none, PyVal.none, false⟩ ("f") mRep fs0 [PyVal.int 5] []
    PyVal.none [] rfl rfl

/-- C7: computation-error atomicity. On a cache-miss call whose underlying
computation raises, the exception propagates unchanged to the caller and
the filesystem is unchanged (no cache file is created at the cache path). -/
theorem c7_computation_error_atomicity
    (cfg : WrapCfg) (name : String) (method : Method) (fs : FS)
    (args : List PyVal) (kwargs : KwArgs) (cd cmt0 : PyVal)
    (kw1 kw2 kw3 : KwArgs) (ad : Bool) (cmt : PyVal) (d0 : String) (e : PyErr)
    (h1 : resolveCachedir cfg args kwargs = .ok (cd, kw1))
    (h2 : pyTruthy cd = true)
    (h3 : resolveComment cfg kw1 = (cmt0, kw2))
    (h4 : resolveAutodetect cfg kw2 = (ad, kw3))
    (h5 : applyAutodetect ad cmt0 args kw3 = .ok cmt)
    (h6 : asPath cd = .ok d0)
    (h7 : pathExists fs d0 = true)
    (h8 : pathExists fs (ospJoin d0 (mkCachename name cmt)) = false)
    (h9 : method args kw3 = .error e) :
    method_wrapper cfg name method fs args kwargs =
      ⟨.error e, fs, [(args, kw3)]⟩ := by
  simp [method_wrapper, h1, h2, h3, h4, h5, h6,
    validateDir_of_exists fs d0 h7, h8, h9]

/-- Witness for C7 with a computation that raises. -/
theorem c7_witness :
    method_wrapper ⟨PyVal.str ("d"), PyVal.none, false⟩ ("f") mBoom fs0 [] [] =
      ⟨.error (PyErr.user ("boom")), fs0, [([], [])]⟩ :=
  c7_computation_error_atomicity ⟨PyVal.str ("d"), PyVal.none, false⟩ ("f") mBoom
    fs0 [] [] (PyVal.str ("d")) (PyVal.str ("")) [] [] [] false (PyVal.str (""))
    ("d") (PyErr.user ("boom")) rfl rfl rfl rfl rfl rfl rfl rfl rfl

/-- C3 (code bug, line 86): with cachedir `d` and cache_comment `mycomment`
both bound at decoration time, the source assigns `local_cachedir` to the
comment, so the cache file is named `f_d.cache.gz` — the directory value,
not the decoration-time comment `mycomment`. -/
theorem c3_comment_uses_cachedir_value :
    method_wrapper ⟨PyVal.str ("d"), PyVal.str ("mycomment"), false⟩ ("f") mRep
      fs0 [] [] =
      ⟨.ok vRep, addFile fs0 ("d/f_d.cache.gz") (dumps vRep), [([], [])]⟩ := rfl

/-- C4 (code bug, lines 94-96): the autodetect comprehension filters on
the type of the keyword NAME, which is always a string, so every keyword
value is joined — and a boolean keyword value makes the underscore-join
raise TypeError instead of being excluded from the key; no key is derived
for either boolean value. -/
theorem c4_autodetect_filters_keys_not_values :
    method_wrapper ⟨PyVal.str ("d"), PyVal.none, true⟩ ("f") mRep fs0 []
        [("flag", PyVal.bool true)] =
      ⟨.error PyErr.typeError, fs0, []⟩
    ∧ method_wrapper ⟨PyVal.str ("d"), PyVal.none, true⟩ ("f") mRep fs0 []
        [("flag", PyVal.bool false)] =
      ⟨.error PyErr.typeError, fs0, []⟩ := ⟨rfl, rfl⟩

/-- C5 (code bug, lines 108-116): the source appends the `.cache.gz`
suffix before the stripping loops run, so the trailing-punctuation loop
sees the letter `z` and never strips anything: `__call__` yields
`call__.cache.gz`, keeping the trailing underscores the claim (and the
source's own comment) say are stripped. -/
theorem c5_trailing_punctuation_survives :
    mkCachename ("__call__") (PyVal.str ("")) = "call__.cache.gz" := rfl

/-- C6 (code bug, lines 6 and 101-103): with a resolved cache directory
that exists neither as given nor joined to the working directory, the
computation is never invoked, but the error path references `sys`, which
is unbound because line 6 imports `syss`, so the call raises NameError
instead of printing a diagnostic to stderr and exiting with status 1. -/
theorem c6_fatal_path_raises_nameerror :
    method_wrapper ⟨PyVal.str ("nosuchdir"), PyVal.none, false⟩ ("f") mRep fs0 [] [] =
      ⟨.error PyErr.nameError, fs0, []⟩ := rfl

/-- C8 (code bug, lines 70-74): with no decoration-time directory and zero
positional arguments, `args[0]` raises IndexError, which the
`except AttributeError` clause does not catch, so resolution never reaches
the cachedir keyword option and the call fails. -/
theorem c8_zero_args_raises_indexerror :
    method_wrapper ⟨PyVal.none, PyVal.none, false⟩ ("f") mRep fs0 []
        [("cachedir", PyVal.str ("d"))] =
      ⟨.error PyErr.indexError, fs0, []⟩ := rfl

/-- C9 counterexample: a cache-miss call with cache_comment bound (truthy)
at decoration time and also passed at call time; the call-time option is
not consumed and the underlying computation receives it. -/
theorem c9_counterexample_option_forwarded :
    (method_wrapper ⟨PyVal.str ("d"), PyVal.str ("c"), false⟩ ("f") mRep fs0 []
        [("cache_comment", PyVal.str ("xx"))]).calls =
      [([], [("cache_comment", PyVal.str ("xx"))])] := rfl

/-- C9 (amended): on a cache-miss call, a wrapper option (cache_comment,
autodetect) is consumed from the keyword arguments before the underlying
computation is invoked only when no truthy decoration-time value was bound
for that option; with both decoration-time values unset, both options are
absent from the keyword arguments the computation receives. -/
theorem c9_amended_option_consumption
    (cfg : WrapCfg) (name : String) (method : Method) (fs : FS)
    (args : List PyVal) (kwargs : KwArgs) (cd cmt0 : PyVal)
    (kw1 kw2 kw3 : KwArgs) (ad : Bool) (cmt : PyVal) (d0 : String)
    (hcc : pyTruthy cfg.cache_comment = false)
    (had : cfg.autodetect = false)
    (h1 : resolveCachedir cfg args kwargs = .ok (cd, kw1))
    (h2 : pyTruthy cd = true)
    (h3 : resolveComment cfg kw1 = (cmt0, kw2))
    (h4 : resolveAutodetect cfg kw2 = (ad, kw3))
    (h5 : applyAutodetect ad cmt0 args kw3 = .ok cmt)
    (h6 : asPath cd = .ok d0)
    (h7 : pathExists fs d0 = true)
    (h8 : pathExists fs (ospJoin d0 (mkCachename name cmt)) = false) :
    (method_wrapper cfg name method fs args kwargs).calls = [(args, kw3)]
    ∧ lookupKw kw3 ("cache_comment") = Option.none
    ∧ lookupKw kw3 ("autodetect") = Option.none := by
  have hkw2 : kw2 = eraseKey kw1 ("cache_comment") := by
    have h3' := h3
    simp only [resolveComment, hcc, Bool.false_eq_true, if_false, popKw] at h3'
    exact (congrArg Prod.snd h3').symm
  have hkw3 : kw3 = eraseKey kw2 ("autodetect") := by
    have h4' := h4
    simp only [resolveAutodetect, had, Bool.false_eq_true, if_false, popKw] at h4'
    exact (congrArg Prod.snd h4').symm
  refine ⟨?_, ?_, ?_⟩
  · cases hm : method args kw3 with
    | error e =>
      simp [method_wrapper, h1, h2, h3, h4, h5, h6,
        validateDir_of_exists fs d0 h7, h8, hm]
    | ok v =>
      simp [method_wrapper, h1, h2, h3, h4, h5, h6,
        validateDir_of_exists fs d0 h7, h8, hm]
  · calc lookupKw kw3 ("cache_comment")
        = lookupKw kw2 ("cache_comment") := by
          rw [hkw3]
          exact lookup_eraseKey_ne kw2 ("autodetect") ("cache_comment") (by decide)
      _ = Option.none := by
          rw [hkw2]
          exact lookup_eraseKey_self kw1 ("cache_comment")
  · rw [hkw3]
    exact lookup_eraseKey_self kw2 ("autodetect")

/-- Witness for the amended C9: both options passed at call time with no
decoration-time comment or autodetect; the computation receives neither. -/
theorem c9_amended_witness :
    (method_wrapper ⟨PyVal.str ("d"), PyVal.none, false⟩ ("f") mRep fs0 []
        [("cache_comment", PyVal.str ("x")), ("autodetect", PyVal.bool false),
         ("z", PyVal.str ("s"))]).calls =
      [([], [("z", PyVal.str ("s"))])]
    ∧ lookupKw [("z", PyVal.str ("s"))] ("cache_comment") = Option.none
    ∧ lookupKw [("z", PyVal.str ("s"))] ("autodetect") = Option.none :=
  c9_amended_option_consumption ⟨PyVal.str ("d"), PyVal.none, false⟩ ("f") mRep fs0
    [] [("cache_comment", PyVal.str ("x")), ("autodetect", PyVal.bool false),
        ("z", PyVal.str ("s"))]
    (PyVal.str ("d")) (PyVal.str ("x"))
    [("cache_comment", PyVal.str ("x")), ("autodetect", PyVal.bool false),
     ("z", PyVal.str ("s"))]
    [("autodetect", PyVal.bool false), ("z", PyVal.str ("s"))]
    [("z", PyVal.str ("s"))]
    false (PyVal.str ("x")) ("d")
    rfl rfl rfl rfl rfl rfl rfl rfl rfl rfl

/-- C10: when no decoration-time cache directory is bound and the first
positional argument exposes a cachedir attribute, a call-time cachedir
keyword option is not consumed: on a cache miss the underlying computation
receives the keyword arguments with the cachedir entry unchanged. -/
theorem c10_attr_cachedir_not_consumed
    (cfg : WrapCfg) (name : String) (method : Method) (fs : FS)
    (a : PyVal) (rest : List PyVal) (kwargs : KwArgs) (s : String)
    (cmt0 : PyVal) (kw2 kw3 : KwArgs) (ad : Bool) (cmt : PyVal)
    (h0 : pyTruthy cfg.cachedir = false)
    (hattr : getattrCachedir a = some s)
    (hs : pyTruthy (PyVal.str s) = true)
    (h3 : resolveComment cfg kwargs = (cmt0, kw2))
    (h4 : resolveAutodetect cfg kw2 = (ad, kw3))
    (h5 : applyAutodetect ad cmt0 (a :: rest) kw3 = .ok cmt)
    (h7 : pathExists fs s = true)
    (h8 : pathExists fs (ospJoin s (mkCachename name cmt)) = false) :
    (method_wrapper cfg name method fs (a :: rest) kwargs).calls =
      [(a :: rest, kw3)]
    ∧ lookupKw kw3 ("cachedir") = lookupKw kwargs ("cachedir") := by
  have h1 : resolveCachedir cfg (a :: rest) kwargs = .ok (.str s, kwargs) := by
    simp [resolveCachedir, h0, hattr]
  constructor
  · cases hm : method (a :: rest) kw3 with
    | error e =>
      simp [method_wrapper, h1, hs, h3, h4, h5, asPath,
        validateDir_of_exists fs s h7, h8, hm]
    | ok v =>
      simp [method_wrapper, h1, hs, h3, h4, h5, asPath,
        validateDir_of_exists fs s h7, h8, hm]
  · calc lookupKw kw3 ("cachedir")
        = lookupKw kw2 ("cachedir") := by
          have e4 : (resolveAutodetect cfg kw2).2 = kw3 := by rw [h4]
          rw [← e4]
          exact lookup_resolveAutodetect_ne cfg kw2 ("cachedir") (by decide)
      _ = lookupKw kwargs ("cachedir") := by
          have e3 : (resolveComment cfg kwargs).2 = kw2 := by rw [h3]
          rw [← e3]
          exact lookup_resolveComment_ne cfg kwargs ("cachedir") (by decide)

/-- Witness for C10: first argument with cachedir attribute `d`, call-time
cachedir keyword `other` forwarded unchanged. -/
theorem c10_witness :
    (method_wrapper ⟨PyVal.none, PyVal.none, false⟩ ("f") mRep fs0
        [PyVal.obj (some ("d"))] [("cachedir", PyVal.str ("other"))]).calls =
      [([PyVal.obj (some ("d"))], [("cachedir", PyVal.str ("other"))])]
    ∧ lookupKw [("cachedir", PyVal.str ("other"))] ("cachedir") =
        lookupKw [("cachedir", PyVal.str ("other"))] ("cachedir") :=
  c10_attr_cachedir_not_consumed ⟨PyVal.none, PyVal.none, false⟩ ("f") mRep fs0
    (PyVal.obj (some ("d"))) [] [("cachedir", PyVal.str ("other"))] ("d")
    (PyVal.str ("")) [("cachedir", PyVal.str ("other"))]
    [("cachedir", PyVal.str ("other"))] false (PyVal.str (""))
    rfl rfl rfl rfl rfl rfl rfl rfl

end SimpleCaching
